import Mathlib

/-!
# Verification of the feedback-app persistence and request-orchestration layer

Shallow embedding of the repository's two source files:

* `src/db.rs`   — the Repository: SQLite-backed CRUD over two tables,
  `prompts(id PK, title, description, created_at)` and
  `feedback(id PK, prompt_id, content, created_at)`.
* `src/main.rs` — the Request Orchestrator: axum handlers mapping routes to
  repository calls and rendered views.

Modelling choices:

* A table is a `List` of rows in insertion (rowid) order; `INSERT` appends.
* `id TEXT PRIMARY KEY` means an `INSERT` with a duplicate id fails, so the
  fallible write operations return `Except Unit (DbState × row)`.
  SQLite does not enforce the `FOREIGN KEY` clause unless
  `PRAGMA foreign_keys = ON` is issued, which this code never does, so
  `create_feedback` performs no existence check on `prompt_id` (the Rust
  comments and the spec agree on this).
* `ORDER BY created_at DESC` is modelled by a sort with respect to
  `fun a b => b.created_at ≤ a.created_at` (string comparison: SQLite compares
  `TEXT` bytewise, which on the UTF-8 RFC 3339 strings stored here agrees with
  Lean's lexicographic `String` order). The concrete sorting algorithm is a
  stable insertion sort; the ordering contract leaves ties unspecified, and
  every theorem below is insensitive to that choice except where timestamps
  are strictly ordered.
* `uuid::Uuid::new_v4().to_string()` and `chrono::Utc::now().to_rfc3339()` are
  external effects; the generated `id` and `created_at` strings are passed to
  the operations as explicit arguments.
* Template rendering is the opaque external collaborator: a rendered template
  is `Response.html (View …)` carrying exactly the data the Rust handler puts
  into the Askama template struct, while `Html("literal".to_string())` in an
  error arm is `Response.message "literal"`. Distinct constructors reflect
  that the rendered pages and the literal bodies are pairwise distinct texts
  (e.g. the empty listing page contains "No prompts yet", not
  "Error loading prompts").
* `delete_prompt` runs two successive SQL statements, either of which can fail
  with an I/O fault; the pair of booleans `ok1 ok2` is the failure oracle for
  the two statements, and the returned state reflects how far execution got.
-/

namespace FeedbackApp

/-- Row of the `prompts` table / the `db::Prompt` struct. -/
structure Prompt where
  id : String
  title : String
  description : String
  created_at : String
deriving DecidableEq, Repr

/-- Row of the `feedback` table / the `db::Feedback` struct. -/
structure Feedback where
  id : String
  prompt_id : String
  content : String
  created_at : String
deriving DecidableEq, Repr

/-- The persistent store: the two tables created by `db::init_db`, each as a
list of rows in insertion order. -/
structure DbState where
  prompts : List Prompt
  feedback : List Feedback
deriving DecidableEq, Repr

/-- The store just after `init_db` on a fresh database: both tables empty. -/
def emptyDb : DbState := ⟨[], []⟩

/-- Generic storage failure (`sqlx::Error` is opaque to this layer). -/
abbrev DbErr := Unit

/-- `db::create_prompt`: `INSERT INTO prompts (id, title, description,
created_at) VALUES (?, ?, ?, ?)` and return the fully populated entity.
The generated uuid `id` and timestamp `created_at` are explicit arguments.
The insert fails iff the `id TEXT PRIMARY KEY` constraint is violated. -/
def create_prompt (db : DbState) (id title description created_at : String) :
    Except DbErr (DbState × Prompt) :=
  if db.prompts.any (fun p => p.id == id) then .error ()
  else
    let p : Prompt := ⟨id, title, description, created_at⟩
    .ok ({ db with prompts := db.prompts ++ [p] }, p)

/-- Lexicographic `≤` on character lists by code point: SQLite's default
BINARY collation compares `TEXT` values bytewise, and on valid UTF-8 the
bytewise order coincides with the code-point lexicographic order. -/
def charsLe : List Char → List Char → Bool
  | [], _ => true
  | _ :: _, [] => false
  | a :: as, b :: bs =>
    if a.toNat < b.toNat then true
    else if b.toNat < a.toNat then false
    else charsLe as bs

/-- Strict lexicographic `<` on character lists by code point. -/
def charsLt : List Char → List Char → Bool
  | _, [] => false
  | [], _ :: _ => true
  | a :: as, b :: bs =>
    if a.toNat < b.toNat then true
    else if b.toNat < a.toNat then false
    else charsLt as bs

/-- SQLite BINARY-collation `≤` on strings. -/
def strLe (s t : String) : Bool := charsLe s.data t.data

/-- SQLite BINARY-collation `<` on strings. -/
def strLt (s t : String) : Bool := charsLt s.data t.data

/-- Descending `created_at` order on prompts: `a` comes before `b` when
`a.created_at ≥ b.created_at` (`ORDER BY created_at DESC`). -/
def promptNewer (a b : Prompt) : Prop := strLe b.created_at a.created_at = true

instance : DecidableRel promptNewer :=
  fun a b => inferInstanceAs (Decidable (strLe b.created_at a.created_at = true))

/-- Descending `created_at` order on feedback rows. -/
def feedbackNewer (a b : Feedback) : Prop := strLe b.created_at a.created_at = true

instance : DecidableRel feedbackNewer :=
  fun a b => inferInstanceAs (Decidable (strLe b.created_at a.created_at = true))

/-- `db::get_all_prompts`: `SELECT id, title, description, created_at FROM
prompts ORDER BY created_at DESC`. -/
def get_all_prompts (db : DbState) : List Prompt :=
  db.prompts.insertionSort promptNewer

/-- `db::get_prompt_by_id`: `SELECT … FROM prompts WHERE id = ?` with
`fetch_optional` — the first matching row, if any. -/
def get_prompt_by_id (db : DbState) (id : String) : Option Prompt :=
  db.prompts.find? (fun p => p.id == id)

/-- `db::create_feedback`: `INSERT INTO feedback (id, prompt_id, content,
created_at) VALUES (?, ?, ?, ?)`. No foreign-key check happens (SQLite does
not enforce the declared constraint without `PRAGMA foreign_keys = ON`); the
insert fails iff the feedback `id` primary key is violated. -/
def create_feedback (db : DbState) (prompt_id content id created_at : String) :
    Except DbErr (DbState × Feedback) :=
  if db.feedback.any (fun f => f.id == id) then .error ()
  else
    let f : Feedback := ⟨id, prompt_id, content, created_at⟩
    .ok ({ db with feedback := db.feedback ++ [f] }, f)

/-- `db::get_feedback_for_prompt`: `SELECT … FROM feedback WHERE prompt_id = ?
ORDER BY created_at DESC`. -/
def get_feedback_for_prompt (db : DbState) (prompt_id : String) : List Feedback :=
  (db.feedback.filter (fun f => f.prompt_id == prompt_id)).insertionSort feedbackNewer

/-- First statement of `db::delete_prompt`:
`DELETE FROM feedback WHERE prompt_id = ?`. -/
def delete_feedback_for (db : DbState) (id : String) : DbState :=
  { db with feedback := db.feedback.filter (fun f => !(f.prompt_id == id)) }

/-- Second statement of `db::delete_prompt`: `DELETE FROM prompts WHERE id = ?`. -/
def delete_prompt_row (db : DbState) (id : String) : DbState :=
  { db with prompts := db.prompts.filter (fun p => !(p.id == id)) }

/-- `db::delete_prompt`: delete the feedback rows first, then the prompt row,
as two separate non-atomic statements. `ok1`/`ok2` is the I/O failure oracle
for the two statements; on a failure the function returns early (`?` in Rust)
and the state reflects the statements that already ran. A `DELETE` matching
zero rows is still a success. -/
def delete_prompt (db : DbState) (id : String) (ok1 ok2 : Bool) :
    DbState × Except DbErr Unit :=
  if ok1 then
    let db1 := delete_feedback_for db id
    if ok2 then (delete_prompt_row db1 id, .ok ()) else (db1, .error ())
  else (db, .error ())

/-! ### Request Orchestrator (`src/main.rs`)

Handlers receive the result of each repository call (the repository is the
only effectful collaborator), so a handler is a pure function of those
results; the feedback-submission handler, whose claim is about the store
itself, is additionally given in state-passing form.
-/

/-- Data handed to the external Askama `render` collaborator: one constructor
per template struct in `main.rs`, carrying exactly that struct's fields. -/
inductive View
  | adminList (prompts : List Prompt)
  | adminNew
  | adminDetail (prompt : Prompt) (feedback_list : List Feedback) (feedback_url : String)
  | feedbackForm (prompt : Prompt)
  | feedbackSuccess
deriving DecidableEq, Repr

/-- A handler's response. `html v` is `Html(template.render().unwrap())` for
the template carrying `v`; `message s` is `Html(s.to_string())` built from a
string literal in an error arm; `redirect l` is `Redirect::to(l)`. The three
constructors (and distinct views) produce pairwise distinct response texts. -/
inductive Response
  | html (v : View)
  | message (s : String)
  | redirect (location : String)
deriving DecidableEq, Repr

/-- `needle` occurs at the start of `hay` (character lists). -/
def leadMatch : List Char → List Char → Bool
  | [], _ => true
  | _ :: _, [] => false
  | a :: as, b :: bs => a == b && leadMatch as bs

/-- `needle` occurs somewhere inside `hay` (character lists). -/
def subMatch (needle : List Char) : List Char → Bool
  | [] => leadMatch needle []
  | b :: bs => leadMatch needle (b :: bs) || subMatch needle bs

/-- Rust `str::contains(pat)`: `pat` occurs as a contiguous substring of `s`.
(Both uses in `main.rs` have pure-ASCII patterns, for which byte-level and
character-level substring search agree.) -/
def strContains (s pat : String) : Bool := subMatch pat.data s.data

/-- Protocol classification from `admin_detail` (`main.rs` lines 100–104):
`http` when the host contains `localhost` or `127.0.0.1`, else `https`. -/
def protocolFor (host : String) : String :=
  if strContains host "localhost" || strContains host "127.0.0.1" then "http"
  else "https"

/-- Handler for `GET /admin` (`admin_list`), as a function of the
`get_all_prompts` result. -/
def admin_list (res : Except DbErr (List Prompt)) : Response :=
  match res with
  | .ok prompts => .html (.adminList prompts)
  | .error _ => .message "Error loading prompts"

/-- Handler for `POST /admin/new` (`admin_new_submit`), as a function of the
`create_prompt` result. -/
def admin_new_submit (res : Except DbErr Prompt) : Response :=
  match res with
  | .ok prompt => .redirect ("/admin/prompt/" ++ prompt.id)
  | .error _ => .redirect "/admin"

/-- Handler for `GET /admin/prompt/:id` (`admin_detail`), as a function of the
inbound `Host` header, the path id, and the two repository results. On
anything but `Ok(Some(prompt))` the handler returns `Html("Prompt not found")`
without touching the feedback table; otherwise a failed feedback read is
replaced by the empty list (`unwrap_or_default`). -/
def admin_detail (host id : String) (promptRes : Except DbErr (Option Prompt))
    (feedbackRes : Except DbErr (List Feedback)) : Response :=
  match promptRes with
  | .ok (some prompt) =>
      let feedback_list := match feedbackRes with
        | .ok l => l
        | .error _ => []
      let feedback_url := protocolFor host ++ "://" ++ host ++ "/feedback/" ++ id
      .html (.adminDetail prompt feedback_list feedback_url)
  | _ => .message "Prompt not found"

/-- Handler for `GET /feedback/:id` (`feedback_form`). -/
def feedback_form (promptRes : Except DbErr (Option Prompt)) : Response :=
  match promptRes with
  | .ok (some prompt) => .html (.feedbackForm prompt)
  | _ => .message "Prompt not found"

/-- Handler for `POST /feedback/:id` (`feedback_submit`), in state-passing
form: look the prompt up; if absent return `Html("Prompt not found")` without
writing; otherwise run `create_feedback` (with generated id `fid` and
timestamp `fts`) and render the success template, or the literal error body
if the insert fails (a failed `INSERT` leaves the store unchanged). -/
def feedback_submit (db : DbState) (id content fid fts : String) :
    DbState × Response :=
  match get_prompt_by_id db id with
  | some _ =>
      match create_feedback db id content fid fts with
      | .ok (db2, _) => (db2, .html .feedbackSuccess)
      | .error _ => (db, .message "Error submitting feedback")
  | none => (db, .message "Prompt not found")

/-- Handler for `GET /` (`index`). -/
def index : Response := .redirect "/admin"

/-- The listing route `/admin` from `create_router`. -/
def listRoute : String := "/admin"

/-- The detail route `/admin/prompt/:id` from `create_router`, instantiated
at a concrete id. -/
def detailRoute (id : String) : String := "/admin/prompt/" ++ id

/-! ### Reachable store states

States reachable from a fresh database through the repository's public
mutating operations (with arbitrary generated ids/timestamps and arbitrary
I/O outcomes for the two `delete_prompt` statements). -/

/-- Reachability of a store state via the repository operations. -/
inductive Reachable : DbState → Prop
  | empty : Reachable emptyDb
  | createP {db db' : DbState} {p : Prompt} {id t d ts : String} :
      Reachable db → create_prompt db id t d ts = .ok (db', p) → Reachable db'
  | createF {db db' : DbState} {f : Feedback} {pid c id ts : String} :
      Reachable db → create_feedback db pid c id ts = .ok (db', f) → Reachable db'
  | deleteP {db : DbState} {id : String} {ok1 ok2 : Bool} :
      Reachable db → Reachable (delete_prompt db id ok1 ok2).1

/-- Reachability when every prompt creation supplies a non-empty title (the
validation the spec's data model assumes but no code performs). -/
inductive ReachableNE : DbState → Prop
  | empty : ReachableNE emptyDb
  | createP {db db' : DbState} {p : Prompt} {id t d ts : String} :
      ReachableNE db → t ≠ "" → create_prompt db id t d ts = .ok (db', p) →
      ReachableNE db'
  | createF {db db' : DbState} {f : Feedback} {pid c id ts : String} :
      ReachableNE db → create_feedback db pid c id ts = .ok (db', f) →
      ReachableNE db'
  | deleteP {db : DbState} {id : String} {ok1 ok2 : Bool} :
      ReachableNE db → ReachableNE (delete_prompt db id ok1 ok2).1

/-- Store with two prompts `A`, `B`, one feedback row each. -/
def dbIso : DbState :=
  ⟨[⟨"A", "P1", "", "1"⟩, ⟨"B", "P2", "", "2"⟩],
   [⟨"fa", "A", "for A", "1"⟩, ⟨"fb", "B", "for B", "2"⟩]⟩

/-- The store reached by creating one prompt with an empty title. -/
def dbEmptyTitle : DbState := ⟨[⟨"id1", "", "d", "t1"⟩], []⟩

/-! ### Helper lemmas -/

theorem charsLe_total : ∀ l m : List Char, charsLe l m = true ∨ charsLe m l = true
  | [], _ => .inl rfl
  | _ :: _, [] => .inr rfl
  | a :: as, b :: bs => by
    simp only [charsLe]
    rcases Nat.lt_trichotomy a.toNat b.toNat with h | h | h
    · left; simp [h]
    · have hab : ¬ a.toNat < b.toNat := by omega
      have hba : ¬ b.toNat < a.toNat := by omega
      simpa [hab, hba] using charsLe_total as bs
    · right; simp [h]

theorem charsLe_trans : ∀ l m n : List Char,
    charsLe l m = true → charsLe m n = true → charsLe l n = true
  | [], _, _, _, _ => rfl
  | _ :: _, [], _, h1, _ => by simp [charsLe] at h1
  | _ :: _, _ :: _, [], _, h2 => by simp [charsLe] at h2
  | a :: as, b :: bs, c :: cs, h1, h2 => by
    simp only [charsLe] at h1 h2 ⊢
    rcases Nat.lt_trichotomy a.toNat b.toNat with hab | hab | hab <;>
      rcases Nat.lt_trichotomy b.toNat c.toNat with hbc | hbc | hbc <;>
      first
        | (have hac : a.toNat < c.toNat := by omega
           simp [hac])
        | (have h1' : ¬ a.toNat < b.toNat := by omega
           have h2' : ¬ b.toNat < c.toNat := by omega
           have h3' : ¬ a.toNat < c.toNat := by omega
           have h4' : ¬ c.toNat < a.toNat := by omega
           simp [hab, hbc, h1', h2', h3', h4'] at h1 h2 ⊢
           exact charsLe_trans as bs cs h1 h2)
        | (simp [hab, hbc, Nat.lt_asymm] at h1 h2 ⊢ <;> omega)

theorem charsLt_not_ge : ∀ l m : List Char,
    charsLt l m = true → charsLe m l = false
  | _, [], h => by simp [charsLt] at h
  | [], _ :: _, _ => rfl
  | a :: as, b :: bs, h => by
    simp only [charsLt] at h
    simp only [charsLe]
    rcases Nat.lt_trichotomy a.toNat b.toNat with hab | hab | hab
    · have h1' : ¬ b.toNat < a.toNat := by omega
      simp [hab, h1']
    · have h1' : ¬ a.toNat < b.toNat := by omega
      have h2' : ¬ b.toNat < a.toNat := by omega
      simp [h1', h2'] at h ⊢
      exact charsLt_not_ge as bs h
    · have h1' : ¬ a.toNat < b.toNat := by omega
      simp [h1', hab] at h

/-- `strLt s t` implies `strLe t s` is false. -/
theorem strLt_not_ge {s t : String} (h : strLt s t = true) : strLe t s = false :=
  charsLt_not_ge s.data t.data h

/-- `find?` skips a prefix on which the predicate is everywhere false. -/
theorem find?_append_of_forall_false {α : Type} {p : α → Bool} :
    ∀ {l1 : List α} (l2 : List α), (∀ x ∈ l1, p x = false) →
      (l1 ++ l2).find? p = l2.find? p
  | [], _, _ => rfl
  | a :: l1, l2, h => by
    have ha : p a = false := h a (List.mem_cons_self a l1)
    simp only [List.cons_append, List.find?, ha]
    exact find?_append_of_forall_false l2 fun x hx => h x (List.mem_cons_of_mem a hx)

/-- Filtering for a key after having removed a different key is the same as
filtering the original list. -/
theorem filter_key_after_remove {α : Type} (key : α → String) (i j : String)
    (hij : j ≠ i) (l : List α) :
    ((l.filter fun x => !(key x == i)).filter fun x => key x == j) =
      l.filter fun x => key x == j := by
  induction l with
  | nil => rfl
  | cons a l ih =>
    cases hbi : key a == i <;> cases hbj : key a == j
    · simp [List.filter_cons, hbi, hbj, ih]
    · simp [List.filter_cons, hbi, hbj, ih]
    · simp [List.filter_cons, hbi, hbj, ih]
    · exact absurd ((eq_of_beq hbj).symm.trans (eq_of_beq hbi)) hij

/-- `find?` for a key after having removed a different key is unchanged. -/
theorem find?_key_after_remove {α : Type} (key : α → String) (i j : String)
    (hij : j ≠ i) (l : List α) :
    ((l.filter fun x => !(key x == i)).find? fun x => key x == j) =
      l.find? fun x => key x == j := by
  induction l with
  | nil => rfl
  | cons a l ih =>
    cases hbi : key a == i <;> cases hbj : key a == j
    · simp [List.filter_cons, List.find?, hbi, hbj, ih]
    · simp [List.filter_cons, List.find?, hbi, hbj, ih]
    · simp [List.filter_cons, List.find?, hbi, hbj, ih]
    · exact absurd ((eq_of_beq hbj).symm.trans (eq_of_beq hbi)) hij

/-- Inversion for a successful `create_prompt`: the new state appends the new
row, the returned entity is that row, and the id was fresh. -/
theorem create_prompt_ok_inv {db db' : DbState} {p : Prompt} {id t d ts : String}
    (h : create_prompt db id t d ts = .ok (db', p)) :
    db' = { db with prompts := db.prompts ++ [⟨id, t, d, ts⟩] } ∧
    p = (⟨id, t, d, ts⟩ : Prompt) ∧
    db.prompts.any (fun r => r.id == id) = false := by
  unfold create_prompt at h
  cases hany : db.prompts.any (fun r => r.id == id) with
  | true =>
    rw [if_pos hany] at h
    exact absurd h (by simp)
  | false =>
    rw [if_neg (by simp [hany])] at h
    refine ⟨?_, ?_, rfl⟩
    · exact (congrArg Prod.fst (Except.ok.inj h)).symm
    · exact (congrArg Prod.snd (Except.ok.inj h)).symm

/-- Inversion for a successful `create_feedback`. -/
theorem create_feedback_ok_inv {db db' : DbState} {f : Feedback}
    {pid c id ts : String}
    (h : create_feedback db pid c id ts = .ok (db', f)) :
    db' = { db with feedback := db.feedback ++ [⟨id, pid, c, ts⟩] } ∧
    f = (⟨id, pid, c, ts⟩ : Feedback) ∧
    db.feedback.any (fun r => r.id == id) = false := by
  unfold create_feedback at h
  cases hany : db.feedback.any (fun r => r.id == id) with
  | true =>
    rw [if_pos hany] at h
    exact absurd h (by simp)
  | false =>
    rw [if_neg (by simp [hany])] at h
    refine ⟨?_, ?_, rfl⟩
    · exact (congrArg Prod.fst (Except.ok.inj h)).symm
    · exact (congrArg Prod.snd (Except.ok.inj h)).symm

/-- Invariant: every prompt row in a `ReachableNE` state has a non-empty
title. -/
theorem reachableNE_titles {db : DbState} (h : ReachableNE db) :
    ∀ p ∈ db.prompts, p.title ≠ "" := by
  induction h with
  | empty => intro p hp; simp [emptyDb] at hp
  | createP hr ht heq ih =>
    intro p hp
    obtain ⟨rfl, -, -⟩ := create_prompt_ok_inv heq
    rcases List.mem_append.1 hp with hp | hp
    · exact ih p hp
    · simp at hp
      subst hp
      exact ht
  | createF hr heq ih =>
    intro p hp
    obtain ⟨rfl, -, -⟩ := create_feedback_ok_inv heq
    exact ih p hp
  | deleteP hr ih =>
    rename_i db id ok1 ok2
    intro p hp
    cases ok1 with
    | false => exact ih p hp
    | true =>
      cases ok2 with
      | false => exact ih p hp
      | true => exact ih p (List.mem_of_mem_filter hp)

/-! ### The claims -/

/-- C1: for every inbound host string and prompt id, the detail handler's
feedback URL is `{protocol}://{host}/feedback/{id}`, where the protocol is
`http` iff the host contains `localhost` or `127.0.0.1` as a substring, and
`https` otherwise. -/
theorem feedback_url_correct (host id : String) (prompt : Prompt)
    (fb : List Feedback) :
    admin_detail host id (.ok (some prompt)) (.ok fb) =
      .html (.adminDetail prompt fb
        (protocolFor host ++ "://" ++ host ++ "/feedback/" ++ id)) ∧
    (protocolFor host = "http" ↔
      (strContains host "localhost" || strContains host "127.0.0.1") = true) ∧
    (protocolFor host = "https" ↔
      (strContains host "localhost" || strContains host "127.0.0.1") = false) := by
  refine ⟨rfl, ?_, ?_⟩ <;>
    · unfold protocolFor
      cases h : (strContains host "localhost" || strContains host "127.0.0.1") <;>
        simp [h]

/-- C4, counterexample to the claim as stated: on a storage failure the
listing handler's response is not the listing view rendered with an empty
prompt sequence (its body is the literal `Error loading prompts`, while the
empty listing page is a different text containing `No prompts yet`). -/
theorem admin_list_error_not_empty_listing :
    admin_list (.error ()) ≠ .html (.adminList []) := by decide

/-- C4, amended: on a storage failure the listing handler degrades to the
fixed plain body `Error loading prompts` — a distinguishable error response —
while on success (including an empty store) it renders the listing view. -/
theorem admin_list_error_behavior :
    admin_list (.error ()) = .message "Error loading prompts" ∧
    (∀ prompts, admin_list (.ok prompts) = .html (.adminList prompts)) :=
  ⟨rfl, fun _ => rfl⟩

/-- C5: every element of `listFeedback(promptId)` carries `prompt_id =
promptId`; consequently feedback appearing in `listFeedback(a)` never appears
in `listFeedback(b)` when `a ≠ b`. -/
theorem feedback_isolation (db : DbState) (a b : String) (f : Feedback)
    (hmem : f ∈ get_feedback_for_prompt db a) (hab : a ≠ b) :
    f.prompt_id = a ∧ f ∉ get_feedback_for_prompt db b := by
  have key : ∀ (pid : String) (g : Feedback),
      g ∈ get_feedback_for_prompt db pid → g.prompt_id = pid := by
    intro pid g hg
    have hmemf := (List.perm_insertionSort feedbackNewer _).mem_iff.1 hg
    exact eq_of_beq (List.mem_filter.1 hmemf).2
  have h1 := key a f hmem
  refine ⟨h1, fun hmem2 => ?_⟩
  exact hab (h1.symm.trans (key b f hmem2))

/-- C5 witness: in `dbIso`, the feedback row listed for prompt `A` has
`prompt_id = "A"` and does not appear in `listFeedback("B")`. -/
theorem feedback_isolation_witness :
    (⟨"fa", "A", "for A", "1"⟩ : Feedback).prompt_id = "A" ∧
    (⟨"fa", "A", "for A", "1"⟩ : Feedback) ∉ get_feedback_for_prompt dbIso "B" :=
  feedback_isolation dbIso "A" "B" ⟨"fa", "A", "for A", "1"⟩ (by decide) (by decide)

/-- C7: a successful `createPrompt` redirects to the detail route of the new
id; a storage failure redirects back to the listing route, surfacing no
error. -/
theorem new_submit_redirects (p : Prompt) :
    admin_new_submit (.ok p) = .redirect (detailRoute p.id) ∧
    admin_new_submit (.error ()) = .redirect listRoute :=
  ⟨rfl, rfl⟩

/-- C8: a feedback submission whose prompt id does not resolve renders the
not-found body and leaves the store unchanged — no feedback row is created. -/
theorem feedback_submit_nonexistent (db : DbState) (id content fid fts : String)
    (habs : get_prompt_by_id db id = none) :
    feedback_submit db id content fid fts = (db, .message "Prompt not found") := by
  simp [feedback_submit, habs]

/-- C8 witness: submitting feedback against id `nonexistent` on the empty
store renders not-found and leaves the store empty. -/
theorem feedback_submit_nonexistent_witness :
    feedback_submit emptyDb "nonexistent" "c" "f1" "t1" =
      (emptyDb, .message "Prompt not found") :=
  feedback_submit_nonexistent emptyDb "nonexistent" "c" "f1" "t1" rfl

/-- C2: after a successful `deletePrompt(id)`, `listFeedback(id)` is empty and
`getPrompt(id)` is absent; the operation is the sequential composition of the
feedback deletion (first) and the prompt-row deletion (second), two separate
non-atomic steps — if the second statement fails, the feedback rows are
already gone while the prompt table is untouched. -/
theorem delete_prompt_cascade (db db' : DbState) (id : String) (ok1 ok2 : Bool)
    (h : delete_prompt db id ok1 ok2 = (db', .ok ())) :
    get_feedback_for_prompt db' id = [] ∧
    get_prompt_by_id db' id = none ∧
    delete_prompt db id true true =
      (delete_prompt_row (delete_feedback_for db id) id, .ok ()) ∧
    delete_prompt db id true false = (delete_feedback_for db id, .error ()) ∧
    (delete_feedback_for db id).prompts = db.prompts := by
  have hdb : db' = delete_prompt_row (delete_feedback_for db id) id := by
    cases ok1 with
    | false => exact absurd (congrArg Prod.snd h) (by simp [delete_prompt])
    | true =>
      cases ok2 with
      | false => exact absurd (congrArg Prod.snd h) (by simp [delete_prompt])
      | true => exact (congrArg Prod.fst h).symm
  subst hdb
  refine ⟨?_, ?_, rfl, rfl, rfl⟩
  · show ((db.feedback.filter fun f => !(f.prompt_id == id)).filter
        fun f => f.prompt_id == id).insertionSort feedbackNewer = []
    rw [List.filter_filter]
    simp
  · show ((db.prompts.filter fun p => !(p.id == id)).find? fun p => p.id == id) = none
    rw [List.find?_eq_none]
    intro p hp
    simpa using (List.mem_filter.1 hp).2

/-- C2 witness: deleting prompt `A` from `dbIso` empties `listFeedback("A")`
and removes the prompt, through the two statements in order. -/
theorem delete_prompt_cascade_witness :
    get_feedback_for_prompt ⟨[⟨"B", "P2", "", "2"⟩], [⟨"fb", "B", "for B", "2"⟩]⟩ "A" = [] ∧
    get_prompt_by_id ⟨[⟨"B", "P2", "", "2"⟩], [⟨"fb", "B", "for B", "2"⟩]⟩ "A" = none ∧
    delete_prompt dbIso "A" true true =
      (delete_prompt_row (delete_feedback_for dbIso "A") "A", .ok ()) ∧
    delete_prompt dbIso "A" true false = (delete_feedback_for dbIso "A", .error ()) ∧
    (delete_feedback_for dbIso "A").prompts = dbIso.prompts :=
  delete_prompt_cascade dbIso ⟨[⟨"B", "P2", "", "2"⟩], [⟨"fb", "B", "for B", "2"⟩]⟩
    "A" true true rfl

/-- C10: `deletePrompt(id)` succeeds even when no matching prompt or feedback
exists, and changes nothing outside its own key: prompt rows with a different
id and feedback rows with a different prompt id survive, and the lookup and
listing for any other key are unchanged. -/
theorem delete_prompt_frame (db : DbState) (id j : String) (hj : j ≠ id) :
    (delete_prompt db id true true).2 = .ok () ∧
    get_prompt_by_id (delete_prompt db id true true).1 j = get_prompt_by_id db j ∧
    get_feedback_for_prompt (delete_prompt db id true true).1 j =
      get_feedback_for_prompt db j ∧
    (∀ p ∈ db.prompts, p.id ≠ id → p ∈ (delete_prompt db id true true).1.prompts) ∧
    (∀ f ∈ db.feedback, f.prompt_id ≠ id →
      f ∈ (delete_prompt db id true true).1.feedback) := by
  refine ⟨rfl, ?_, ?_, ?_, ?_⟩
  · show ((db.prompts.filter fun p => !(p.id == id)).find? fun p => p.id == j) =
      (db.prompts.find? fun p => p.id == j)
    exact find?_key_after_remove Prompt.id id j hj db.prompts
  · show ((db.feedback.filter fun f => !(f.prompt_id == id)).filter
        fun f => f.prompt_id == j).insertionSort feedbackNewer =
      (db.feedback.filter fun f => f.prompt_id == j).insertionSort feedbackNewer
    rw [filter_key_after_remove Feedback.prompt_id id j hj db.feedback]
  · intro p hp hpid
    exact List.mem_filter.2 ⟨hp, by simp [hpid]⟩
  · intro f hf hfid
    exact List.mem_filter.2 ⟨hf, by simp [hfid]⟩

/-- C10 witness: deleting prompt `A` from `dbIso` succeeds and leaves prompt
`B`, its feedback row, and every `B`-keyed lookup unchanged. -/
theorem delete_prompt_frame_witness :
    (delete_prompt dbIso "A" true true).2 = .ok () ∧
    get_prompt_by_id (delete_prompt dbIso "A" true true).1 "B" =
      get_prompt_by_id dbIso "B" ∧
    get_feedback_for_prompt (delete_prompt dbIso "A" true true).1 "B" =
      get_feedback_for_prompt dbIso "B" ∧
    (∀ p ∈ dbIso.prompts, p.id ≠ "A" →
      p ∈ (delete_prompt dbIso "A" true true).1.prompts) ∧
    (∀ f ∈ dbIso.feedback, f.prompt_id ≠ "A" →
      f ∈ (delete_prompt dbIso "A" true true).1.feedback) :=
  delete_prompt_frame dbIso "A" "B" (by decide)

/-- C3: both listings are sorted newest-first by `created_at` and are
permutations of the backing rows (ties left to the sort's choice); creating
`First` then `Second` with strictly increasing timestamps makes
`listPrompts()` yield `["Second", "First"]`. -/
theorem listings_newest_first (db db1 db2 : DbState) (p1 p2 : Prompt)
    (pid id1 id2 d1 d2 ts1 ts2 : String)
    (h1 : create_prompt emptyDb id1 "First" d1 ts1 = .ok (db1, p1))
    (h2 : create_prompt db1 id2 "Second" d2 ts2 = .ok (db2, p2))
    (hts : strLt ts1 ts2 = true) :
    List.Sorted promptNewer (get_all_prompts db) ∧
    (get_all_prompts db).Perm db.prompts ∧
    List.Sorted feedbackNewer (get_feedback_for_prompt db pid) ∧
    (get_feedback_for_prompt db pid).Perm
      (db.feedback.filter fun f => f.prompt_id == pid) ∧
    (get_all_prompts db2).map Prompt.title = ["Second", "First"] := by
  obtain ⟨hdb1, hp1, -⟩ := create_prompt_ok_inv h1
  subst hdb1; subst hp1
  obtain ⟨hdb2, hp2, -⟩ := create_prompt_ok_inv h2
  subst hdb2; subst hp2
  haveI : IsTotal Prompt promptNewer :=
    ⟨fun a b => charsLe_total b.created_at.data a.created_at.data⟩
  haveI : IsTrans Prompt promptNewer :=
    ⟨fun _ _ _ hab hbc => charsLe_trans _ _ _ hbc hab⟩
  haveI : IsTotal Feedback feedbackNewer :=
    ⟨fun a b => charsLe_total b.created_at.data a.created_at.data⟩
  haveI : IsTrans Feedback feedbackNewer :=
    ⟨fun _ _ _ hab hbc => charsLe_trans _ _ _ hbc hab⟩
  refine ⟨List.sorted_insertionSort promptNewer db.prompts,
    List.perm_insertionSort promptNewer db.prompts,
    List.sorted_insertionSort feedbackNewer _,
    List.perm_insertionSort feedbackNewer _, ?_⟩
  have hnot : ¬ promptNewer ⟨id1, "First", d1, ts1⟩ ⟨id2, "Second", d2, ts2⟩ := by
    simp [promptNewer, strLt_not_ge hts]
  simp [get_all_prompts, emptyDb, hnot]

/-- C3 witness: the listings of `dbIso` are sorted and complete, and the
concrete two-prompt scenario (`First` at timestamp 1, `Second` at 2) lists
`["Second", "First"]`. -/
theorem listings_newest_first_witness :
    List.Sorted promptNewer (get_all_prompts dbIso) ∧
    (get_all_prompts dbIso).Perm dbIso.prompts ∧
    List.Sorted feedbackNewer (get_feedback_for_prompt dbIso "A") ∧
    (get_feedback_for_prompt dbIso "A").Perm
      (dbIso.feedback.filter fun f => f.prompt_id == "A") ∧
    (get_all_prompts ⟨[⟨"a", "First", "", "1"⟩, ⟨"b", "Second", "", "2"⟩], []⟩).map
      Prompt.title = ["Second", "First"] :=
  listings_newest_first dbIso ⟨[⟨"a", "First", "", "1"⟩], []⟩
    ⟨[⟨"a", "First", "", "1"⟩, ⟨"b", "Second", "", "2"⟩], []⟩
    ⟨"a", "First", "", "1"⟩ ⟨"b", "Second", "", "2"⟩
    "A" "a" "b" "" "" "1" "2" rfl rfl (by decide)

/-- C6: `createPrompt(t, d)` followed by `getPrompt` on the returned id
yields a prompt with identical title and description; when the generated id
and timestamp strings are non-empty (as uuid-v4 / RFC 3339 strings always
are) the stored ones are non-empty; and two successive successful creations
return distinct ids (the primary key rejects a duplicate). -/
theorem create_get_roundtrip (db db1 db2 : DbState) (p1 p2 : Prompt)
    (id1 t1 d1 ts1 id2 t2 d2 ts2 : String)
    (h1 : create_prompt db id1 t1 d1 ts1 = .ok (db1, p1))
    (h2 : create_prompt db1 id2 t2 d2 ts2 = .ok (db2, p2))
    (hid1 : id1 ≠ "") (hts1 : ts1 ≠ "") (hid2 : id2 ≠ "") (hts2 : ts2 ≠ "") :
    get_prompt_by_id db1 p1.id = some p1 ∧ p1.title = t1 ∧ p1.description = d1 ∧
    p1.id ≠ "" ∧ p1.created_at ≠ "" ∧
    get_prompt_by_id db2 p2.id = some p2 ∧ p2.title = t2 ∧ p2.description = d2 ∧
    p2.id ≠ "" ∧ p2.created_at ≠ "" ∧
    p1.id ≠ p2.id := by
  obtain ⟨hdb1, hp1, hfresh1⟩ := create_prompt_ok_inv h1
  subst hdb1; subst hp1
  obtain ⟨hdb2, hp2, hfresh2⟩ := create_prompt_ok_inv h2
  subst hdb2; subst hp2
  have hall1 : ∀ r ∈ db.prompts, (r.id == id1) = false := by
    intro r hr
    simpa using (List.any_eq_false.1 hfresh1) r hr
  have hall2 : ∀ r ∈ db.prompts ++ [(⟨id1, t1, d1, ts1⟩ : Prompt)],
      (r.id == id2) = false := by
    intro r hr
    simpa using (List.any_eq_false.1 hfresh2) r hr
  have hne : id1 ≠ id2 := by
    have := hall2 ⟨id1, t1, d1, ts1⟩ (List.mem_append_right _ (List.mem_singleton.2 rfl))
    simpa using this
  refine ⟨?_, rfl, rfl, hid1, hts1, ?_, rfl, rfl, hid2, hts2, hne⟩
  · show ((db.prompts ++ [(⟨id1, t1, d1, ts1⟩ : Prompt)]).find? fun r => r.id == id1) =
      some ⟨id1, t1, d1, ts1⟩
    rw [find?_append_of_forall_false _ hall1]
    simp [List.find?]
  · show (((db.prompts ++ [(⟨id1, t1, d1, ts1⟩ : Prompt)]) ++
        [(⟨id2, t2, d2, ts2⟩ : Prompt)]).find? fun r => r.id == id2) =
      some ⟨id2, t2, d2, ts2⟩
    rw [find?_append_of_forall_false _ hall2]
    simp [List.find?]

/-- C6 witness: two concrete creations on the empty store round-trip through
`getPrompt`, store titles and descriptions verbatim, and get distinct ids. -/
theorem create_get_roundtrip_witness :
    get_prompt_by_id ⟨[⟨"id-a", "T1", "D1", "t1"⟩], []⟩ "id-a" =
      some ⟨"id-a", "T1", "D1", "t1"⟩ ∧
    ("T1" : String) = "T1" ∧ ("D1" : String) = "D1" ∧
    ("id-a" : String) ≠ "" ∧ ("t1" : String) ≠ "" ∧
    get_prompt_by_id ⟨[⟨"id-a", "T1", "D1", "t1"⟩, ⟨"id-b", "T2", "D2", "t2"⟩], []⟩
      "id-b" = some ⟨"id-b", "T2", "D2", "t2"⟩ ∧
    ("T2" : String) = "T2" ∧ ("D2" : String) = "D2" ∧
    ("id-b" : String) ≠ "" ∧ ("t2" : String) ≠ "" ∧
    ("id-a" : String) ≠ "id-b" :=
  create_get_roundtrip emptyDb ⟨[⟨"id-a", "T1", "D1", "t1"⟩], []⟩
    ⟨[⟨"id-a", "T1", "D1", "t1"⟩, ⟨"id-b", "T2", "D2", "t2"⟩], []⟩
    ⟨"id-a", "T1", "D1", "t1"⟩ ⟨"id-b", "T2", "D2", "t2"⟩
    "id-a" "T1" "D1" "t1" "id-b" "T2" "D2" "t2" rfl rfl
    (by decide) (by decide) (by decide) (by decide)

/-- C9, counterexample to the claim as stated: no code validates titles, so
the state reached by one `createPrompt` call with an empty title is
reachable, yet its listing (and the lookup of its id) exposes a prompt whose
title is the empty string. -/
theorem empty_title_reachable :
    Reachable dbEmptyTitle ∧
    ¬ (∀ p ∈ get_all_prompts dbEmptyTitle, p.title ≠ "") ∧
    ¬ (∀ id p, get_prompt_by_id dbEmptyTitle id = some p → p.title ≠ "") := by
  have hc : create_prompt emptyDb "id1" "" "d" "t1" =
      .ok (dbEmptyTitle, ⟨"id1", "", "d", "t1"⟩) := rfl
  refine ⟨Reachable.createP Reachable.empty hc, ?_, ?_⟩
  · intro hall
    exact hall ⟨"id1", "", "d", "t1"⟩ (by decide) rfl
  · intro hall
    exact hall "id1" ⟨"id1", "", "d", "t1"⟩ (by decide) rfl

/-- C9, amended: the store keeps titles verbatim and enforces no
non-emptiness; but if every prompt creation in the history supplied a
non-empty title, every prompt returned by `listPrompts()` or `getPrompt` has
a non-empty title. -/
theorem titles_nonempty_if_validated (db : DbState) (hdb : ReachableNE db) :
    (∀ p ∈ get_all_prompts db, p.title ≠ "") ∧
    (∀ id p, get_prompt_by_id db id = some p → p.title ≠ "") := by
  have base := reachableNE_titles hdb
  constructor
  · intro p hp
    exact base p ((List.perm_insertionSort promptNewer _).mem_iff.1 hp)
  · intro id p hp
    exact base p (List.mem_of_find?_eq_some hp)

/-- C9 witness: a store reached by one creation with the non-empty title
`Test` satisfies the amended invariant. -/
theorem titles_nonempty_witness :
    (∀ p ∈ get_all_prompts ⟨[⟨"id1", "Test", "Desc", "t1"⟩], []⟩, p.title ≠ "") ∧
    (∀ id p, get_prompt_by_id ⟨[⟨"id1", "Test", "Desc", "t1"⟩], []⟩ id = some p →
      p.title ≠ "") := by
  have hc : create_prompt emptyDb "id1" "Test" "Desc" "t1" =
      .ok (⟨[⟨"id1", "Test", "Desc", "t1"⟩], []⟩, ⟨"id1", "Test", "Desc", "t1"⟩) := rfl
  exact titles_nonempty_if_validated ⟨[⟨"id1", "Test", "Desc", "t1"⟩], []⟩
    (ReachableNE.createP ReachableNE.empty (by decide) hc)

end FeedbackApp
